import Mathlib

/-!
Shallow embedding of the sleep-monitor anomaly-detection core:
src/stats_utils.py (robust statistics, minute aggregation, baseline
computation, the anomaly classifier and its cooldown gate) and the rolling
reading buffer of src/run_detector.py (SleepMonitorDetector.store_reading).

Modelling conventions:
* Python floats are modelled as rationals (ℚ); all comparisons exercised by
  the classifier are exact rational comparisons.
* ISO-8601 UTC timestamp strings (parsed with datetime.fromisoformat) are
  modelled as integer seconds; truncating a datetime to the minute becomes
  subtracting the remainder mod 60.
* A value that may be absent (Python None) is an Option ℚ; a Python
  TypeError raised by arithmetic or an order comparison on None is modelled
  by Except.error.
* A reading tuple is either the short format (ts, temp, hum, pressure) or
  the extended format with lux, full_spectrum, ir, sound_rms; the Bool
  field ext records whether the tuple length exceeds 4 (equivalently 7),
  and short-format readings carry none in the last four slots.
* Python sorted(...) inside np.median is modelled by insertion sort, and
  np.std by the square root (over ℝ) of the mean squared deviation.
-/

namespace SleepMonitor

/-- One reading row: the tuple
(ts_utc, temp_f, humidity, pressure[, lux, full_spectrum, ir, sound_rms]). -/
structure Reading where
  ts : ℤ
  temp_f : Option ℚ
  humidity : Option ℚ
  pressure : Option ℚ
  ext : Bool
  lux : Option ℚ
  full_spectrum : Option ℚ
  ir : Option ℚ
  sound_rms : Option ℚ
deriving DecidableEq

/-- Insertion of one element into a sorted list (helper for the model of
Python sorted / np.median). -/
def insertSorted (x : ℚ) : List ℚ → List ℚ
  | [] => [x]
  | y :: ys => if x ≤ y then x :: y :: ys else y :: insertSorted x ys

/-- Model of Python sorted(values). -/
def pySorted (values : List ℚ) : List ℚ := values.foldr insertSorted []

/-- np.median: middle element of the sorted sequence, average of the two
middles for even length; 0 on empty input (the source always guards the
empty case separately, returning 0.0). -/
def npMedian (values : List ℚ) : ℚ :=
  if values.isEmpty then 0
  else
    let sorted := pySorted values
    let n := values.length
    if n % 2 = 1 then sorted.getD (n / 2) 0
    else (sorted.getD (n / 2 - 1) 0 + sorted.getD (n / 2) 0) / 2

/-- np.mean (helper for np.std). -/
def npMean (values : List ℚ) : ℚ := values.sum / values.length

/-- np.std: population standard deviation, the square root of the mean
squared deviation from the mean. -/
noncomputable def npStd (values : List ℚ) : ℝ :=
  Real.sqrt (((values.map (fun x => (x - npMean values) ^ 2)).sum / values.length : ℚ))

/-- robust_z_score from src/stats_utils.py lines 18-25. -/
def robust_z_score (x median mad : ℚ) : ℚ :=
  if mad = 0 then 0 else |x - median| / (1.4826 * mad)

/-- median_absolute_deviation from src/stats_utils.py lines 27-34. -/
def median_absolute_deviation (data : List ℚ) : ℚ :=
  if data.isEmpty then 0
  else
    let median := npMedian data
    npMedian (data.map (fun x => |x - median|))

/-- celsius_to_fahrenheit from src/stats_utils.py lines 14-16. -/
def celsius_to_fahrenheit (celsius : ℚ) : ℚ := (celsius * 9 / 5) + 32

/-- The dict returned by calculate_minute_stats. -/
structure MinuteStats where
  temp_f_med : ℚ
  temp_f_mad : ℚ
  temp_f_std : ℝ
  hum_med : ℚ
  hum_mad : ℚ
  hum_std : ℝ
  lux_med : ℚ
  lux_mad : ℚ
  lux_std : ℝ
  sound_med : ℚ
  sound_mad : ℚ
  sound_std : ℝ
  rows : ℕ

/-- calculate_minute_stats from src/stats_utils.py lines 36-100.
temps and humidities filter out None reading-by-reading; lux and sound
values are collected only when the first reading is extended and carries a
present value there (has_light / has_sound look at readings[0] only). -/
noncomputable def calculate_minute_stats (readings : List Reading) : MinuteStats :=
  match readings with
  | [] =>
    { temp_f_med := 0, temp_f_mad := 0, temp_f_std := 0,
      hum_med := 0, hum_mad := 0, hum_std := 0,
      lux_med := 0, lux_mad := 0, lux_std := 0,
      sound_med := 0, sound_mad := 0, sound_std := 0,
      rows := 0 }
  | r0 :: _ =>
    let temps := readings.filterMap Reading.temp_f
    let humidities := readings.filterMap Reading.humidity
    let has_light := r0.ext && r0.lux.isSome
    let has_sound := r0.ext && r0.sound_rms.isSome
    let lux_values := if has_light then readings.filterMap Reading.lux else []
    let sound_values := if has_sound then readings.filterMap Reading.sound_rms else []
    { temp_f_med := if temps.isEmpty then 0 else npMedian temps,
      temp_f_mad := if temps.isEmpty then 0 else median_absolute_deviation temps,
      temp_f_std := if 1 < temps.length then npStd temps else 0,
      hum_med := if humidities.isEmpty then 0 else npMedian humidities,
      hum_mad := if humidities.isEmpty then 0 else median_absolute_deviation humidities,
      hum_std := if 1 < humidities.length then npStd humidities else 0,
      lux_med := if lux_values.isEmpty then 0 else npMedian lux_values,
      lux_mad := if lux_values.isEmpty then 0 else median_absolute_deviation lux_values,
      lux_std := if 1 < lux_values.length then npStd lux_values else 0,
      sound_med := if sound_values.isEmpty then 0 else npMedian sound_values,
      sound_mad := if sound_values.isEmpty then 0 else median_absolute_deviation sound_values,
      sound_std := if 1 < sound_values.length then npStd sound_values else 0,
      rows := readings.length }

/-- The dict returned by calculate_baseline_thresholds (same keys as
MinuteStats minus rows). -/
structure BaselineThresholds where
  temp_f_med : ℚ
  temp_f_mad : ℚ
  temp_f_std : ℝ
  hum_med : ℚ
  hum_mad : ℚ
  hum_std : ℝ
  lux_med : ℚ
  lux_mad : ℚ
  lux_std : ℝ
  sound_med : ℚ
  sound_mad : ℚ
  sound_std : ℝ

/-- calculate_baseline_thresholds from src/stats_utils.py lines 289-346:
identical pooling to calculate_minute_stats, but the empty input returns the
empty dict (modelled as none). -/
noncomputable def calculate_baseline_thresholds (readings : List Reading) :
    Option BaselineThresholds :=
  match readings with
  | [] => none
  | r0 :: _ =>
    let temps := readings.filterMap Reading.temp_f
    let humidities := readings.filterMap Reading.humidity
    let has_light := r0.ext && r0.lux.isSome
    let has_sound := r0.ext && r0.sound_rms.isSome
    let lux_values := if has_light then readings.filterMap Reading.lux else []
    let sound_values := if has_sound then readings.filterMap Reading.sound_rms else []
    some
      { temp_f_med := if temps.isEmpty then 0 else npMedian temps,
        temp_f_mad := if temps.isEmpty then 0 else median_absolute_deviation temps,
        temp_f_std := if 1 < temps.length then npStd temps else 0,
        hum_med := if humidities.isEmpty then 0 else npMedian humidities,
        hum_mad := if humidities.isEmpty then 0 else median_absolute_deviation humidities,
        hum_std := if 1 < humidities.length then npStd humidities else 0,
        lux_med := if lux_values.isEmpty then 0 else npMedian lux_values,
        lux_mad := if lux_values.isEmpty then 0 else median_absolute_deviation lux_values,
        lux_std := if 1 < lux_values.length then npStd lux_values else 0,
        sound_med := if sound_values.isEmpty then 0 else npMedian sound_values,
        sound_mad := if sound_values.isEmpty then 0 else median_absolute_deviation sound_values,
        sound_std := if 1 < sound_values.length then npStd sound_values else 0 }

/-- The baseline_stats dict consumed by detect_anomalies (only the med/mad
keys are read; a key missing from the dict defaults to 0 via .get). -/
structure BaselineStats where
  temp_f_med : ℚ
  temp_f_mad : ℚ
  hum_med : ℚ
  hum_mad : ℚ
  lux_med : ℚ
  lux_mad : ℚ
  sound_med : ℚ
  sound_mad : ℚ
deriving DecidableEq

/-- The rule configuration of detect_anomalies after the float()/int()
parses of src/stats_utils.py lines 127-141 (string values with these
documented defaults). -/
structure Config where
  robust_z_threshold : ℚ
  temp_roc_limit : ℚ
  humidity_roc_limit : ℚ
  lux_roc_limit : ℚ
  sound_roc_limit : ℚ
  temp_min : ℚ
  temp_max : ℚ
  humidity_min : ℚ
  humidity_max : ℚ
  lux_min : ℚ
  lux_max : ℚ
  sound_min : ℚ
  sound_max : ℚ
  cooldown_minutes : ℤ
deriving DecidableEq

/-- Keys of the last_alert_times dict. -/
inductive AlertKey
  | temp
  | humidity
  | lux
  | sound
deriving DecidableEq

/-- last_alert_times: metric key to last alert timestamp.  The source
stores ISO strings where empty string means no prior alert; both the empty
string and an unparseable string make should_send_alert permissive, so the
model folds them into none. -/
def LastAlertTimes : Type := AlertKey → Option ℤ

/-- should_send_alert from src/stats_utils.py lines 255-266: strictly more
than cooldown_minutes*60 seconds must have elapsed; an absent (falsy) or
unparseable last-alert timestamp allows the alert. -/
def should_send_alert (last_alert_time : Option ℤ) (current_time : ℤ)
    (cooldown_minutes : ℤ) : Bool :=
  match last_alert_time with
  | none => true
  | some last_alert => decide (current_time - last_alert > cooldown_minutes * 60)

/-- The classifier's cooldown test, mirroring the source idiom
`if not last_alert or should_send_alert(last_alert, current_time, cooldown)`. -/
def cooldown_gate (la : LastAlertTimes) (k : AlertKey) (current_time : ℤ)
    (cooldown_minutes : ℤ) : Bool :=
  (la k).isNone || should_send_alert (la k) current_time cooldown_minutes

/-- Metric names appearing in emitted events. -/
inductive Metric
  | temp_f
  | humidity
  | lux
  | sound_rms
deriving DecidableEq

/-- Rule names appearing in emitted events. -/
inductive Rule
  | robust_z_score
  | guardrail
deriving DecidableEq

/-- The content of the human-readable details f-string: the z-score variant
renders the computed z-score and the threshold, the guardrail variant the
value and the configured range. -/
inductive Detail
  | zscore (z threshold : ℚ)
  | guardrail (value lo hi : ℚ)
deriving DecidableEq

/-- One anomaly event dict appended by detect_anomalies. -/
structure Event where
  ts_utc : ℤ
  metric : Metric
  value : ℚ
  rule : Rule
  details : Detail
deriving DecidableEq

/-- Robust z-score rule for temp_f (src/stats_utils.py lines 145-158).
When the baseline temp MAD is positive and temp_f is absent, Python raises
a TypeError inside robust_z_score (None minus float). -/
def tempZScoreCheck (r : Reading) (b : BaselineStats) (cfg : Config)
    (la : LastAlertTimes) : Except String (List Event) :=
  if b.temp_f_mad > 0 then
    match r.temp_f with
    | none => .error "TypeError: unsupported operand"
    | some temp_f =>
      let temp_z := robust_z_score temp_f b.temp_f_med b.temp_f_mad
      if temp_z > cfg.robust_z_threshold then
        if cooldown_gate la .temp r.ts cfg.cooldown_minutes then
          .ok [{ ts_utc := r.ts, metric := .temp_f, value := temp_f,
                 rule := .robust_z_score,
                 details := .zscore temp_z cfg.robust_z_threshold }]
        else .ok []
      else .ok []
  else .ok []

/-- Robust z-score rule for humidity (src/stats_utils.py lines 160-172). -/
def humZScoreCheck (r : Reading) (b : BaselineStats) (cfg : Config)
    (la : LastAlertTimes) : Except String (List Event) :=
  if b.hum_mad > 0 then
    match r.humidity with
    | none => .error "TypeError: unsupported operand"
    | some humidity =>
      let hum_z := robust_z_score humidity b.hum_med b.hum_mad
      if hum_z > cfg.robust_z_threshold then
        if cooldown_gate la .humidity r.ts cfg.cooldown_minutes then
          .ok [{ ts_utc := r.ts, metric := .humidity, value := humidity,
                 rule := .robust_z_score,
                 details := .zscore hum_z cfg.robust_z_threshold }]
        else .ok []
      else .ok []
  else .ok []

/-- Guardrail rule for temp_f (src/stats_utils.py lines 175-184).  The
comparison temp_f < temp_min is evaluated unconditionally, so an absent
temp_f raises a TypeError. -/
def tempGuardrailCheck (r : Reading) (cfg : Config) (la : LastAlertTimes) :
    Except String (List Event) :=
  match r.temp_f with
  | none => .error "TypeError: not supported between NoneType and float"
  | some temp_f =>
    if temp_f < cfg.temp_min ∨ temp_f > cfg.temp_max then
      if cooldown_gate la .temp r.ts cfg.cooldown_minutes then
        .ok [{ ts_utc := r.ts, metric := .temp_f, value := temp_f,
               rule := .guardrail,
               details := .guardrail temp_f cfg.temp_min cfg.temp_max }]
      else .ok []
    else .ok []

/-- Guardrail rule for humidity (src/stats_utils.py lines 186-195).  The
source tests the truthiness of humidity, so both an absent humidity and a
present value of exactly 0 skip the rule. -/
def humGuardrailCheck (r : Reading) (cfg : Config) (la : LastAlertTimes) :
    List Event :=
  match r.humidity with
  | none => []
  | some humidity =>
    if humidity ≠ 0 ∧ (humidity < cfg.humidity_min ∨ humidity > cfg.humidity_max) then
      if cooldown_gate la .humidity r.ts cfg.cooldown_minutes then
        [{ ts_utc := r.ts, metric := .humidity, value := humidity,
           rule := .guardrail,
           details := .guardrail humidity cfg.humidity_min cfg.humidity_max }]
      else []
    else []

/-- The lux value extracted from the current reading
(src/stats_utils.py line 122). -/
def luxValue (r : Reading) : Option ℚ := if r.ext then r.lux else none

/-- The sound_rms value extracted from the current reading
(src/stats_utils.py line 123). -/
def soundValue (r : Reading) : Option ℚ := if r.ext then r.sound_rms else none

/-- Light block: z-score then guardrail, both only when lux is present
(src/stats_utils.py lines 197-223). -/
def luxCheck (r : Reading) (b : BaselineStats) (cfg : Config)
    (la : LastAlertTimes) : List Event :=
  match luxValue r with
  | none => []
  | some lux =>
    (if b.lux_mad > 0 then
       let lux_z := robust_z_score lux b.lux_med b.lux_mad
       if lux_z > cfg.robust_z_threshold then
         if cooldown_gate la .lux r.ts cfg.cooldown_minutes then
           [{ ts_utc := r.ts, metric := .lux, value := lux,
              rule := .robust_z_score,
              details := .zscore lux_z cfg.robust_z_threshold }]
         else []
       else []
     else [])
    ++
    (if lux < cfg.lux_min ∨ lux > cfg.lux_max then
       if cooldown_gate la .lux r.ts cfg.cooldown_minutes then
         [{ ts_utc := r.ts, metric := .lux, value := lux,
            rule := .guardrail,
            details := .guardrail lux cfg.lux_min cfg.lux_max }]
       else []
     else [])

/-- Sound block: z-score then guardrail, both only when sound_rms is
present (src/stats_utils.py lines 225-251). -/
def soundCheck (r : Reading) (b : BaselineStats) (cfg : Config)
    (la : LastAlertTimes) : List Event :=
  match soundValue r with
  | none => []
  | some sound_rms =>
    (if b.sound_mad > 0 then
       let sound_z := robust_z_score sound_rms b.sound_med b.sound_mad
       if sound_z > cfg.robust_z_threshold then
         if cooldown_gate la .sound r.ts cfg.cooldown_minutes then
           [{ ts_utc := r.ts, metric := .sound_rms, value := sound_rms,
              rule := .robust_z_score,
              details := .zscore sound_z cfg.robust_z_threshold }]
         else []
       else []
     else [])
    ++
    (if sound_rms < cfg.sound_min ∨ sound_rms > cfg.sound_max then
       if cooldown_gate la .sound r.ts cfg.cooldown_minutes then
         [{ ts_utc := r.ts, metric := .sound_rms, value := sound_rms,
            rule := .guardrail,
            details := .guardrail sound_rms cfg.sound_min cfg.sound_max }]
       else []
     else [])

/-- detect_anomalies from src/stats_utils.py lines 102-253: the anomaly
list is accumulated in source order (temp z-score, humidity z-score, temp
guardrail, humidity guardrail, lux block, sound block); a TypeError raised
by any rule aborts the whole call. -/
def detect_anomalies (r : Reading) (b : BaselineStats) (cfg : Config)
    (la : LastAlertTimes) : Except String (List Event) :=
  match tempZScoreCheck r b cfg la with
  | .error e => .error e
  | .ok a1 =>
    match humZScoreCheck r b cfg la with
    | .error e => .error e
    | .ok a2 =>
      match tempGuardrailCheck r cfg la with
      | .error e => .error e
      | .ok a3 =>
        .ok (a1 ++ a2 ++ a3 ++ humGuardrailCheck r cfg la
              ++ luxCheck r b cfg la ++ soundCheck r b cfg la)

/-- The value the current sample carries for a given event metric. -/
def sampleValue (r : Reading) : Metric → Option ℚ
  | .temp_f => r.temp_f
  | .humidity => r.humidity
  | .lux => luxValue r
  | .sound_rms => soundValue r

/-- The (metric, rule) signature of an event. -/
def sig (e : Event) : Metric × Rule := (e.metric, e.rule)

/-- Truncation of a timestamp to its minute
(dt.replace with second and microsecond zeroed, src/stats_utils.py line 280). -/
def minuteKey (t : ℤ) : ℤ := t - t % 60

/-- One iteration of the grouping loop of aggregate_readings_to_minutes:
append the reading to its minute group, creating the group at the end on
first occurrence (Python dict insertion order). -/
def insertReading (minute_groups : List (ℤ × List Reading)) (r : Reading) :
    List (ℤ × List Reading) :=
  let k := minuteKey r.ts
  if minute_groups.any (fun p => p.1 = k) then
    minute_groups.map (fun p => if p.1 = k then (p.1, p.2 ++ [r]) else p)
  else
    minute_groups ++ [(k, [r])]

/-- aggregate_readings_to_minutes from src/stats_utils.py lines 268-287. -/
def aggregate_readings_to_minutes (readings : List Reading) :
    List (ℤ × List Reading) :=
  readings.foldl insertReading []

/-- The reading dict produced by SleepMonitorDetector.read_sensors. -/
structure SensorReading where
  temp_f : Option ℚ
  humidity : Option ℚ
  pressure : Option ℚ
  lux : Option ℚ
  full_spectrum : Option ℚ
  ir : Option ℚ
  sound_rms : Option ℚ
deriving DecidableEq

/-- Rolling window horizon in minutes (SleepMonitorDetector, src/run_detector.py). -/
def rolling_window_minutes : ℤ := 5

/-- The buffer tuple built inside store_reading: the reading values stamped
with the wall-clock timestamp taken at the top of the call. -/
def bufferReading (reading : SensorReading) (now : ℤ) : Reading :=
  { ts := now, temp_f := reading.temp_f, humidity := reading.humidity,
    pressure := reading.pressure, ext := true, lux := reading.lux,
    full_spectrum := reading.full_spectrum, ir := reading.ir,
    sound_rms := reading.sound_rms }

/-- The buffer update of SleepMonitorDetector.store_reading
(src/run_detector.py lines 224-242): append the freshly stamped tuple, then
keep exactly the entries whose own stored timestamp is strictly newer than
now minus the 5-minute horizon.  The two datetime.now calls of one
invocation are modelled as one instant now. -/
def store_reading (reading_buffer : List Reading) (reading : SensorReading)
    (now : ℤ) : List Reading :=
  (reading_buffer ++ [bufferReading reading now]).filter
    (fun x => decide (x.ts > now - rolling_window_minutes * 60))

/-- Rule configuration from the documented config defaults. -/
def cfgDefault : Config :=
  { robust_z_threshold := 6, temp_roc_limit := 3, humidity_roc_limit := 8,
    lux_roc_limit := 100, sound_roc_limit := 10,
    temp_min := 50, temp_max := 90, humidity_min := 10, humidity_max := 85,
    lux_min := 0, lux_max := 10000, sound_min := 0, sound_max := 100,
    cooldown_minutes := 15 }

/-- No prior alerts recorded. -/
def noAlerts : LastAlertTimes := fun _ => none

/-- Last-alert map recording one temp alert at time 0. -/
def alertTempAtZero : LastAlertTimes :=
  fun k => match k with
  | .temp => some 0
  | _ => none

/-- Baseline of the end-to-end spec scenario: temp median 70, temp MAD 1. -/
def baseline70 : BaselineStats := ⟨70, 1, 0, 0, 0, 0, 0, 0⟩

/-- Degenerate baseline: every median and MAD is 0. -/
def zeroBaseline : BaselineStats := ⟨0, 0, 0, 0, 0, 0, 0, 0⟩

/-- Short-format sample with temp_f = 78.5 at time 0. -/
def sample785 : Reading := ⟨0, some 78.5, none, none, false, none, none, none, none⟩

/-- Short-format sample with temp_f = 82.0 at time 0. -/
def sample820 : Reading := ⟨0, some 82, none, none, false, none, none, none, none⟩

/-- Sample with temp_f = 83.0 at time 600 (ten minutes after time 0). -/
def sample83at600 : Reading := ⟨600, some 83, none, none, false, none, none, none, none⟩

/-- Sample with temp_f = 83.0 at time 960 (sixteen minutes after time 0). -/
def sample83at960 : Reading := ⟨960, some 83, none, none, false, none, none, none, none⟩

/-- Sample in which temperature is absent while humidity 95 is present and
far outside the default guardrail range [10, 85]. -/
def sampleNoTemp : Reading := ⟨0, none, some 95, none, false, none, none, none, none⟩

/-- Sample with in-range temperature and a present humidity of exactly 0,
outside the default guardrail range [10, 85]. -/
def sampleHumZero : Reading := ⟨0, some 70, some 0, none, false, none, none, none, none⟩

/-- Sample with temp_f = 95.0 (outside the default guardrail range). -/
def sample95 : Reading := ⟨0, some 95, none, none, false, none, none, none, none⟩

/-- Extended-format reading whose lux slot is empty. -/
def rLuxNone : Reading := ⟨0, none, none, none, true, none, none, none, none⟩

/-- Extended-format reading carrying lux = 100. -/
def rLux100 : Reading := ⟨60, none, none, none, true, some 100, none, none, none⟩

/-- Short-format reading with no temperature. -/
def rTempNone : Reading := ⟨0, none, none, none, false, none, none, none, none⟩

/-- Short-format reading carrying temp_f = 80. -/
def rTemp80 : Reading := ⟨60, some 80, none, none, false, none, none, none, none⟩

/-- A reading carrying only a timestamp. -/
def mkTsReading (t : ℤ) : Reading := ⟨t, none, none, none, false, none, none, none, none⟩

/-- 90 one-second samples spanning 01:00:00 to 01:01:29 (with 01:00:00 as
second 3600 of the day). -/
def demo90 : List Reading := (List.range 90).map (fun i => mkTsReading (3600 + (i : ℤ)))

/-- A sensor reading dict with every metric absent except temp. -/
def sensorTemp70 : SensorReading := ⟨some 70, none, none, none, none, none, none⟩

/-- cfgDefault with all four rate-of-change limits changed. -/
def cfgRocChanged : Config :=
  { cfgDefault with
    temp_roc_limit := 99
    humidity_roc_limit := 77
    lux_roc_limit := 55
    sound_roc_limit := 33 }

/-- The eight (metric, rule) signatures an emitted event can carry, in
source append order. -/
def allSigs : List (Metric × Rule) :=
  [(.temp_f, .robust_z_score), (.humidity, .robust_z_score),
   (.temp_f, .guardrail), (.humidity, .guardrail),
   (.lux, .robust_z_score), (.lux, .guardrail),
   (.sound_rms, .robust_z_score), (.sound_rms, .guardrail)]

/-!  Helper lemmas: branch characterizations of the six rule blocks. -/

/-- With no recorded alert for the key, the cooldown gate is open. -/
theorem cooldown_gate_none {la : LastAlertTimes} {k : AlertKey} {ts c : ℤ}
    (h : la k = none) : cooldown_gate la k ts c = true := by
  simp [cooldown_gate, h]

/-- Value of the temp z-score block when temperature is present. -/
theorem tempZScoreCheck_eq {r : Reading} {b : BaselineStats} {cfg : Config}
    {la : LastAlertTimes} {t : ℚ} (ht : r.temp_f = some t) :
    tempZScoreCheck r b cfg la =
      .ok (if b.temp_f_mad > 0 ∧
             robust_z_score t b.temp_f_med b.temp_f_mad > cfg.robust_z_threshold ∧
             cooldown_gate la .temp r.ts cfg.cooldown_minutes = true
           then [⟨r.ts, .temp_f, t, .robust_z_score,
                  .zscore (robust_z_score t b.temp_f_med b.temp_f_mad)
                    cfg.robust_z_threshold⟩]
           else []) := by
  unfold tempZScoreCheck
  rw [ht]
  by_cases h1 : b.temp_f_mad > 0 <;>
    by_cases h2 : robust_z_score t b.temp_f_med b.temp_f_mad > cfg.robust_z_threshold <;>
      by_cases h3 : cooldown_gate la .temp r.ts cfg.cooldown_minutes = true <;>
        simp [h1, h2, h3]

/-- The temp z-score block errors out when the baseline temp MAD is
positive but temperature is absent. -/
theorem tempZScoreCheck_absent {r : Reading} {b : BaselineStats} {cfg : Config}
    {la : LastAlertTimes} (ht : r.temp_f = none) (hm : b.temp_f_mad > 0) :
    tempZScoreCheck r b cfg la = .error "TypeError: unsupported operand" := by
  unfold tempZScoreCheck
  rw [ht]
  simp [hm]

/-- The temp z-score block is empty when the baseline temp MAD is not
positive. -/
theorem tempZScoreCheck_nonpos {r : Reading} {b : BaselineStats} {cfg : Config}
    {la : LastAlertTimes} (hm : ¬ b.temp_f_mad > 0) :
    tempZScoreCheck r b cfg la = .ok [] := by
  unfold tempZScoreCheck
  simp [hm]

/-- Value of the humidity z-score block when humidity is present. -/
theorem humZScoreCheck_eq {r : Reading} {b : BaselineStats} {cfg : Config}
    {la : LastAlertTimes} {h : ℚ} (hh : r.humidity = some h) :
    humZScoreCheck r b cfg la =
      .ok (if b.hum_mad > 0 ∧
             robust_z_score h b.hum_med b.hum_mad > cfg.robust_z_threshold ∧
             cooldown_gate la .humidity r.ts cfg.cooldown_minutes = true
           then [⟨r.ts, .humidity, h, .robust_z_score,
                  .zscore (robust_z_score h b.hum_med b.hum_mad)
                    cfg.robust_z_threshold⟩]
           else []) := by
  unfold humZScoreCheck
  rw [hh]
  by_cases h1 : b.hum_mad > 0 <;>
    by_cases h2 : robust_z_score h b.hum_med b.hum_mad > cfg.robust_z_threshold <;>
      by_cases h3 : cooldown_gate la .humidity r.ts cfg.cooldown_minutes = true <;>
        simp [h1, h2, h3]

/-- The humidity z-score block errors out when the baseline humidity MAD is
positive but humidity is absent. -/
theorem humZScoreCheck_absent {r : Reading} {b : BaselineStats} {cfg : Config}
    {la : LastAlertTimes} (hh : r.humidity = none) (hm : b.hum_mad > 0) :
    humZScoreCheck r b cfg la = .error "TypeError: unsupported operand" := by
  unfold humZScoreCheck
  rw [hh]
  simp [hm]

/-- The humidity z-score block is empty when the baseline humidity MAD is
not positive. -/
theorem humZScoreCheck_nonpos {r : Reading} {b : BaselineStats} {cfg : Config}
    {la : LastAlertTimes} (hm : ¬ b.hum_mad > 0) :
    humZScoreCheck r b cfg la = .ok [] := by
  unfold humZScoreCheck
  simp [hm]

/-- Value of the temp guardrail block when temperature is present. -/
theorem tempGuardrailCheck_eq {r : Reading} {cfg : Config}
    {la : LastAlertTimes} {t : ℚ} (ht : r.temp_f = some t) :
    tempGuardrailCheck r cfg la =
      .ok (if (t < cfg.temp_min ∨ t > cfg.temp_max) ∧
             cooldown_gate la .temp r.ts cfg.cooldown_minutes = true
           then [⟨r.ts, .temp_f, t, .guardrail,
                  .guardrail t cfg.temp_min cfg.temp_max⟩]
           else []) := by
  unfold tempGuardrailCheck
  rw [ht]
  by_cases h1 : t < cfg.temp_min ∨ t > cfg.temp_max <;>
    by_cases h2 : cooldown_gate la .temp r.ts cfg.cooldown_minutes = true <;>
      simp [h1, h2]

/-- The temp guardrail block errors out when temperature is absent. -/
theorem tempGuardrailCheck_absent {r : Reading} {cfg : Config}
    {la : LastAlertTimes} (ht : r.temp_f = none) :
    tempGuardrailCheck r cfg la =
      .error "TypeError: not supported between NoneType and float" := by
  unfold tempGuardrailCheck
  rw [ht]

/-- Value of the humidity guardrail block when humidity is present. -/
theorem humGuardrailCheck_eq {r : Reading} {cfg : Config}
    {la : LastAlertTimes} {h : ℚ} (hh : r.humidity = some h) :
    humGuardrailCheck r cfg la =
      (if (h ≠ 0 ∧ (h < cfg.humidity_min ∨ h > cfg.humidity_max)) ∧
         cooldown_gate la .humidity r.ts cfg.cooldown_minutes = true
       then [⟨r.ts, .humidity, h, .guardrail,
              .guardrail h cfg.humidity_min cfg.humidity_max⟩]
       else []) := by
  unfold humGuardrailCheck
  rw [hh]
  by_cases h1 : h ≠ 0 ∧ (h < cfg.humidity_min ∨ h > cfg.humidity_max) <;>
    by_cases h2 : cooldown_gate la .humidity r.ts cfg.cooldown_minutes = true <;>
      simp [h1, h2]

/-- The humidity guardrail block is empty when humidity is absent. -/
theorem humGuardrailCheck_none {r : Reading} {cfg : Config}
    {la : LastAlertTimes} (hh : r.humidity = none) :
    humGuardrailCheck r cfg la = [] := by
  unfold humGuardrailCheck
  rw [hh]

/-- Value of the lux block when lux is present. -/
theorem luxCheck_eq {r : Reading} {b : BaselineStats} {cfg : Config}
    {la : LastAlertTimes} {v : ℚ} (hv : luxValue r = some v) :
    luxCheck r b cfg la =
      (if b.lux_mad > 0 ∧
         robust_z_score v b.lux_med b.lux_mad > cfg.robust_z_threshold ∧
         cooldown_gate la .lux r.ts cfg.cooldown_minutes = true
       then [⟨r.ts, .lux, v, .robust_z_score,
              .zscore (robust_z_score v b.lux_med b.lux_mad) cfg.robust_z_threshold⟩]
       else []) ++
      (if (v < cfg.lux_min ∨ v > cfg.lux_max) ∧
         cooldown_gate la .lux r.ts cfg.cooldown_minutes = true
       then [⟨r.ts, .lux, v, .guardrail, .guardrail v cfg.lux_min cfg.lux_max⟩]
       else []) := by
  unfold luxCheck
  rw [hv]
  by_cases h1 : b.lux_mad > 0 <;>
    by_cases h2 : robust_z_score v b.lux_med b.lux_mad > cfg.robust_z_threshold <;>
      by_cases h3 : cooldown_gate la .lux r.ts cfg.cooldown_minutes = true <;>
        by_cases h4 : v < cfg.lux_min ∨ v > cfg.lux_max <;>
          simp [h1, h2, h3, h4]

/-- The lux block is empty when lux is absent. -/
theorem luxCheck_none {r : Reading} {b : BaselineStats} {cfg : Config}
    {la : LastAlertTimes} (hv : luxValue r = none) :
    luxCheck r b cfg la = [] := by
  unfold luxCheck
  rw [hv]

/-- Value of the sound block when sound_rms is present. -/
theorem soundCheck_eq {r : Reading} {b : BaselineStats} {cfg : Config}
    {la : LastAlertTimes} {v : ℚ} (hv : soundValue r = some v) :
    soundCheck r b cfg la =
      (if b.sound_mad > 0 ∧
         robust_z_score v b.sound_med b.sound_mad > cfg.robust_z_threshold ∧
         cooldown_gate la .sound r.ts cfg.cooldown_minutes = true
       then [⟨r.ts, .sound_rms, v, .robust_z_score,
              .zscore (robust_z_score v b.sound_med b.sound_mad) cfg.robust_z_threshold⟩]
       else []) ++
      (if (v < cfg.sound_min ∨ v > cfg.sound_max) ∧
         cooldown_gate la .sound r.ts cfg.cooldown_minutes = true
       then [⟨r.ts, .sound_rms, v, .guardrail, .guardrail v cfg.sound_min cfg.sound_max⟩]
       else []) := by
  unfold soundCheck
  rw [hv]
  by_cases h1 : b.sound_mad > 0 <;>
    by_cases h2 : robust_z_score v b.sound_med b.sound_mad > cfg.robust_z_threshold <;>
      by_cases h3 : cooldown_gate la .sound r.ts cfg.cooldown_minutes = true <;>
        by_cases h4 : v < cfg.sound_min ∨ v > cfg.sound_max <;>
          simp [h1, h2, h3, h4]

/-- The sound block is empty when sound_rms is absent. -/
theorem soundCheck_none {r : Reading} {b : BaselineStats} {cfg : Config}
    {la : LastAlertTimes} (hv : soundValue r = none) :
    soundCheck r b cfg la = [] := by
  unfold soundCheck
  rw [hv]

/-- detect_anomalies succeeds exactly when its three fallible blocks do,
and then returns the six block results concatenated in source order. -/
theorem detect_anomalies_ok_iff {r : Reading} {b : BaselineStats} {cfg : Config}
    {la : LastAlertTimes} {evs : List Event} :
    detect_anomalies r b cfg la = .ok evs ↔
      ∃ a1 a2 a3, tempZScoreCheck r b cfg la = .ok a1 ∧
        humZScoreCheck r b cfg la = .ok a2 ∧
        tempGuardrailCheck r cfg la = .ok a3 ∧
        evs = a1 ++ a2 ++ a3 ++ humGuardrailCheck r cfg la
                ++ luxCheck r b cfg la ++ soundCheck r b cfg la := by
  unfold detect_anomalies
  cases h1 : tempZScoreCheck r b cfg la <;>
    cases h2 : humZScoreCheck r b cfg la <;>
      cases h3 : tempGuardrailCheck r cfg la <;>
        simp [eq_comm]

/-- Every successful temp z-score block result is empty or the single
z-score event for the present temperature, with all firing conditions. -/
theorem tempZScoreCheck_shape {r : Reading} {b : BaselineStats} {cfg : Config}
    {la : LastAlertTimes} {l : List Event}
    (h : tempZScoreCheck r b cfg la = .ok l) :
    l = [] ∨ ∃ t, r.temp_f = some t ∧ b.temp_f_mad > 0 ∧
      robust_z_score t b.temp_f_med b.temp_f_mad > cfg.robust_z_threshold ∧
      cooldown_gate la .temp r.ts cfg.cooldown_minutes = true ∧
      l = [⟨r.ts, .temp_f, t, .robust_z_score,
            .zscore (robust_z_score t b.temp_f_med b.temp_f_mad)
              cfg.robust_z_threshold⟩] := by
  cases ht : r.temp_f with
  | none =>
    by_cases hm : b.temp_f_mad > 0
    · rw [tempZScoreCheck_absent ht hm] at h
      exact absurd h (by simp)
    · rw [tempZScoreCheck_nonpos hm] at h
      exact Or.inl (Except.ok.inj h).symm
  | some t =>
    rw [tempZScoreCheck_eq ht] at h
    replace h := Except.ok.inj h
    split at h
    · rename_i hc
      exact Or.inr ⟨t, rfl, hc.1, hc.2.1, hc.2.2, h.symm⟩
    · exact Or.inl h.symm

/-- Every successful humidity z-score block result is empty or the single
z-score event for the present humidity, with all firing conditions. -/
theorem humZScoreCheck_shape {r : Reading} {b : BaselineStats} {cfg : Config}
    {la : LastAlertTimes} {l : List Event}
    (h : humZScoreCheck r b cfg la = .ok l) :
    l = [] ∨ ∃ hv, r.humidity = some hv ∧ b.hum_mad > 0 ∧
      robust_z_score hv b.hum_med b.hum_mad > cfg.robust_z_threshold ∧
      cooldown_gate la .humidity r.ts cfg.cooldown_minutes = true ∧
      l = [⟨r.ts, .humidity, hv, .robust_z_score,
            .zscore (robust_z_score hv b.hum_med b.hum_mad)
              cfg.robust_z_threshold⟩] := by
  cases hh : r.humidity with
  | none =>
    by_cases hm : b.hum_mad > 0
    · rw [humZScoreCheck_absent hh hm] at h
      exact absurd h (by simp)
    · rw [humZScoreCheck_nonpos hm] at h
      exact Or.inl (Except.ok.inj h).symm
  | some hv =>
    rw [humZScoreCheck_eq hh] at h
    replace h := Except.ok.inj h
    split at h
    · rename_i hc
      exact Or.inr ⟨hv, rfl, hc.1, hc.2.1, hc.2.2, h.symm⟩
    · exact Or.inl h.symm

/-- Every successful temp guardrail block result is empty or the single
guardrail event for the present temperature, with all firing conditions. -/
theorem tempGuardrailCheck_shape {r : Reading} {cfg : Config}
    {la : LastAlertTimes} {l : List Event}
    (h : tempGuardrailCheck r cfg la = .ok l) :
    l = [] ∨ ∃ t, r.temp_f = some t ∧ (t < cfg.temp_min ∨ t > cfg.temp_max) ∧
      cooldown_gate la .temp r.ts cfg.cooldown_minutes = true ∧
      l = [⟨r.ts, .temp_f, t, .guardrail,
            .guardrail t cfg.temp_min cfg.temp_max⟩] := by
  cases ht : r.temp_f with
  | none =>
    rw [tempGuardrailCheck_absent ht] at h
    exact absurd h (by simp)
  | some t =>
    rw [tempGuardrailCheck_eq ht] at h
    replace h := Except.ok.inj h
    split at h
    · rename_i hc
      exact Or.inr ⟨t, rfl, hc.1, hc.2, h.symm⟩
    · exact Or.inl h.symm

/-- The humidity guardrail block result is empty or the single guardrail
event for the present, truthy, out-of-range humidity. -/
theorem humGuardrailCheck_shape {r : Reading} {cfg : Config}
    {la : LastAlertTimes} :
    humGuardrailCheck r cfg la = [] ∨ ∃ hv, r.humidity = some hv ∧ hv ≠ 0 ∧
      (hv < cfg.humidity_min ∨ hv > cfg.humidity_max) ∧
      cooldown_gate la .humidity r.ts cfg.cooldown_minutes = true ∧
      humGuardrailCheck r cfg la =
        [⟨r.ts, .humidity, hv, .guardrail,
          .guardrail hv cfg.humidity_min cfg.humidity_max⟩] := by
  cases hh : r.humidity with
  | none => exact Or.inl (humGuardrailCheck_none hh)
  | some hv =>
    rw [humGuardrailCheck_eq hh]
    split
    · rename_i hc
      exact Or.inr ⟨hv, rfl, hc.1.1, hc.1.2, hc.2, rfl⟩
    · exact Or.inl rfl

/-- The lux block splits into a z-score part and a guardrail part, each
empty or a characterized singleton. -/
theorem luxCheck_shape {r : Reading} {b : BaselineStats} {cfg : Config}
    {la : LastAlertTimes} :
    ∃ l1 l2, luxCheck r b cfg la = l1 ++ l2 ∧
      (l1 = [] ∨ ∃ v, luxValue r = some v ∧ b.lux_mad > 0 ∧
        robust_z_score v b.lux_med b.lux_mad > cfg.robust_z_threshold ∧
        cooldown_gate la .lux r.ts cfg.cooldown_minutes = true ∧
        l1 = [⟨r.ts, .lux, v, .robust_z_score,
               .zscore (robust_z_score v b.lux_med b.lux_mad)
                 cfg.robust_z_threshold⟩]) ∧
      (l2 = [] ∨ ∃ v, luxValue r = some v ∧ (v < cfg.lux_min ∨ v > cfg.lux_max) ∧
        cooldown_gate la .lux r.ts cfg.cooldown_minutes = true ∧
        l2 = [⟨r.ts, .lux, v, .guardrail,
               .guardrail v cfg.lux_min cfg.lux_max⟩]) := by
  cases hv : luxValue r with
  | none =>
    exact ⟨[], [], by rw [luxCheck_none hv]; rfl, Or.inl rfl, Or.inl rfl⟩
  | some v =>
    rw [luxCheck_eq hv]
    refine ⟨_, _, rfl, ?_, ?_⟩
    · split
      · rename_i hc
        exact Or.inr ⟨v, rfl, hc.1, hc.2.1, hc.2.2, rfl⟩
      · exact Or.inl rfl
    · split
      · rename_i hc
        exact Or.inr ⟨v, rfl, hc.1, hc.2, rfl⟩
      · exact Or.inl rfl

/-- The sound block splits into a z-score part and a guardrail part, each
empty or a characterized singleton. -/
theorem soundCheck_shape {r : Reading} {b : BaselineStats} {cfg : Config}
    {la : LastAlertTimes} :
    ∃ l1 l2, soundCheck r b cfg la = l1 ++ l2 ∧
      (l1 = [] ∨ ∃ v, soundValue r = some v ∧ b.sound_mad > 0 ∧
        robust_z_score v b.sound_med b.sound_mad > cfg.robust_z_threshold ∧
        cooldown_gate la .sound r.ts cfg.cooldown_minutes = true ∧
        l1 = [⟨r.ts, .sound_rms, v, .robust_z_score,
               .zscore (robust_z_score v b.sound_med b.sound_mad)
                 cfg.robust_z_threshold⟩]) ∧
      (l2 = [] ∨ ∃ v, soundValue r = some v ∧ (v < cfg.sound_min ∨ v > cfg.sound_max) ∧
        cooldown_gate la .sound r.ts cfg.cooldown_minutes = true ∧
        l2 = [⟨r.ts, .sound_rms, v, .guardrail,
               .guardrail v cfg.sound_min cfg.sound_max⟩]) := by
  cases hv : soundValue r with
  | none =>
    exact ⟨[], [], by rw [soundCheck_none hv]; rfl, Or.inl rfl, Or.inl rfl⟩
  | some v =>
    rw [soundCheck_eq hv]
    refine ⟨_, _, rfl, ?_, ?_⟩
    · split
      · rename_i hc
        exact Or.inr ⟨v, rfl, hc.1, hc.2.1, hc.2.2, rfl⟩
      · exact Or.inl rfl
    · split
      · rename_i hc
        exact Or.inr ⟨v, rfl, hc.1, hc.2, rfl⟩
      · exact Or.inl rfl

/-- Every event returned by detect_anomalies carries the sample's timestamp
and the sample's own value for its metric. -/
theorem mem_detect_anomalies {r : Reading} {b : BaselineStats} {cfg : Config}
    {la : LastAlertTimes} {evs : List Event} {e : Event}
    (hok : detect_anomalies r b cfg la = .ok evs) (he : e ∈ evs) :
    e.ts_utc = r.ts ∧ sampleValue r e.metric = some e.value := by
  rcases detect_anomalies_ok_iff.1 hok with ⟨a1, a2, a3, h1, h2, h3, rfl⟩
  simp only [List.mem_append] at he
  rcases he with ((((he | he) | he) | he) | he) | he
  · rcases tempZScoreCheck_shape h1 with rfl | ⟨t, ht, _, _, _, rfl⟩
    · simp at he
    · simp only [List.mem_singleton] at he
      subst he
      exact ⟨rfl, by simp [sampleValue, ht]⟩
  · rcases humZScoreCheck_shape h2 with rfl | ⟨hv, hh, _, _, _, rfl⟩
    · simp at he
    · simp only [List.mem_singleton] at he
      subst he
      exact ⟨rfl, by simp [sampleValue, hh]⟩
  · rcases tempGuardrailCheck_shape h3 with rfl | ⟨t, ht, _, _, rfl⟩
    · simp at he
    · simp only [List.mem_singleton] at he
      subst he
      exact ⟨rfl, by simp [sampleValue, ht]⟩
  · rcases (@humGuardrailCheck_shape r cfg la)
        with h4 | ⟨hv, hh, _, _, _, h4⟩ <;> rw [h4] at he
    · simp at he
    · simp only [List.mem_singleton] at he
      subst he
      exact ⟨rfl, by simp [sampleValue, hh]⟩
  · obtain ⟨l1, l2, heq, hz, hg⟩ :=
      @luxCheck_shape r b cfg la
    rw [heq] at he
    rcases List.mem_append.1 he with he | he
    · rcases hz with rfl | ⟨v, hv, _, _, _, rfl⟩
      · simp at he
      · simp only [List.mem_singleton] at he
        subst he
        exact ⟨rfl, by simp [sampleValue, hv]⟩
    · rcases hg with rfl | ⟨v, hv, _, _, rfl⟩
      · simp at he
      · simp only [List.mem_singleton] at he
        subst he
        exact ⟨rfl, by simp [sampleValue, hv]⟩
  · obtain ⟨l1, l2, heq, hz, hg⟩ :=
      @soundCheck_shape r b cfg la
    rw [heq] at he
    rcases List.mem_append.1 he with he | he
    · rcases hz with rfl | ⟨v, hv, _, _, _, rfl⟩
      · simp at he
      · simp only [List.mem_singleton] at he
        subst he
        exact ⟨rfl, by simp [sampleValue, hv]⟩
    · rcases hg with rfl | ⟨v, hv, _, _, rfl⟩
      · simp at he
      · simp only [List.mem_singleton] at he
        subst he
        exact ⟨rfl, by simp [sampleValue, hv]⟩

/-- The (metric, rule) signatures of a successful detect_anomalies result
form a sublist of the eight possible signatures in source order. -/
theorem detect_anomalies_sigs {r : Reading} {b : BaselineStats} {cfg : Config}
    {la : LastAlertTimes} {evs : List Event}
    (hok : detect_anomalies r b cfg la = .ok evs) :
    List.Sublist (evs.map sig) allSigs := by
  rcases detect_anomalies_ok_iff.1 hok with ⟨a1, a2, a3, h1, h2, h3, rfl⟩
  have s1 : List.Sublist (a1.map sig) [(Metric.temp_f, Rule.robust_z_score)] := by
    rcases tempZScoreCheck_shape h1 with rfl | ⟨t, _, _, _, _, rfl⟩ <;>
      simp [sig]
  have s2 : List.Sublist (a2.map sig) [(Metric.humidity, Rule.robust_z_score)] := by
    rcases humZScoreCheck_shape h2 with rfl | ⟨hv, _, _, _, _, rfl⟩ <;>
      simp [sig]
  have s3 : List.Sublist (a3.map sig) [(Metric.temp_f, Rule.guardrail)] := by
    rcases tempGuardrailCheck_shape h3 with rfl | ⟨t, _, _, _, rfl⟩ <;>
      simp [sig]
  have s4 : List.Sublist ((humGuardrailCheck r cfg la).map sig)
      [(Metric.humidity, Rule.guardrail)] := by
    rcases (@humGuardrailCheck_shape r cfg la)
        with h4 | ⟨hv, _, _, _, _, h4⟩ <;> rw [h4] <;> simp [sig]
  have s5 : List.Sublist ((luxCheck r b cfg la).map sig)
      [(Metric.lux, Rule.robust_z_score), (Metric.lux, Rule.guardrail)] := by
    obtain ⟨l1, l2, heq, hz, hg⟩ :=
      @luxCheck_shape r b cfg la
    rw [heq, List.map_append]
    have t1 : List.Sublist (l1.map sig) [(Metric.lux, Rule.robust_z_score)] := by
      rcases hz with rfl | ⟨v, _, _, _, _, rfl⟩ <;> simp [sig]
    have t2 : List.Sublist (l2.map sig) [(Metric.lux, Rule.guardrail)] := by
      rcases hg with rfl | ⟨v, _, _, _, rfl⟩ <;> simp [sig]
    exact t1.append t2
  have s6 : List.Sublist ((soundCheck r b cfg la).map sig)
      [(Metric.sound_rms, Rule.robust_z_score), (Metric.sound_rms, Rule.guardrail)] := by
    obtain ⟨l1, l2, heq, hz, hg⟩ :=
      @soundCheck_shape r b cfg la
    rw [heq, List.map_append]
    have t1 : List.Sublist (l1.map sig) [(Metric.sound_rms, Rule.robust_z_score)] := by
      rcases hz with rfl | ⟨v, _, _, _, _, rfl⟩ <;> simp [sig]
    have t2 : List.Sublist (l2.map sig) [(Metric.sound_rms, Rule.guardrail)] := by
      rcases hg with rfl | ⟨v, _, _, _, rfl⟩ <;> simp [sig]
    exact t1.append t2
  simp only [List.map_append]
  exact ((((s1.append s2).append s3).append s4).append s5).append s6

/-- Every (temp_f, robust_z_score) event of a successful call comes from
the temp z-score block, with all of its firing conditions. -/
theorem mem_detect_temp_z {r : Reading} {b : BaselineStats} {cfg : Config}
    {la : LastAlertTimes} {evs : List Event} {e : Event}
    (hok : detect_anomalies r b cfg la = .ok evs) (he : e ∈ evs)
    (hm : e.metric = .temp_f) (hr : e.rule = .robust_z_score) :
    ∃ t, r.temp_f = some t ∧ b.temp_f_mad > 0 ∧
      robust_z_score t b.temp_f_med b.temp_f_mad > cfg.robust_z_threshold ∧
      cooldown_gate la .temp r.ts cfg.cooldown_minutes = true ∧
      e = ⟨r.ts, .temp_f, t, .robust_z_score,
            .zscore (robust_z_score t b.temp_f_med b.temp_f_mad)
              cfg.robust_z_threshold⟩ := by
  rcases detect_anomalies_ok_iff.1 hok with ⟨a1, a2, a3, h1, h2, h3, rfl⟩
  simp only [List.mem_append] at he
  rcases he with ((((he | he) | he) | he) | he) | he
  · rcases tempZScoreCheck_shape h1 with rfl | ⟨t, ht, hmad, hzv, hgate, rfl⟩
    · simp at he
    · simp only [List.mem_singleton] at he
      exact ⟨t, ht, hmad, hzv, hgate, he⟩
  · rcases humZScoreCheck_shape h2 with rfl | ⟨hv, _, _, _, _, rfl⟩
    · simp at he
    · simp only [List.mem_singleton] at he
      subst he
      simp at hm
  · rcases tempGuardrailCheck_shape h3 with rfl | ⟨t, _, _, _, rfl⟩
    · simp at he
    · simp only [List.mem_singleton] at he
      subst he
      simp at hr
  · rcases (@humGuardrailCheck_shape r cfg la)
        with h4 | ⟨hv, _, _, _, _, h4⟩ <;> rw [h4] at he
    · simp at he
    · simp only [List.mem_singleton] at he
      subst he
      simp at hm
  · obtain ⟨l1, l2, heq, hz, hg⟩ :=
      @luxCheck_shape r b cfg la
    rw [heq] at he
    rcases List.mem_append.1 he with he | he
    · rcases hz with rfl | ⟨v, _, _, _, _, rfl⟩
      · simp at he
      · simp only [List.mem_singleton] at he
        subst he
        simp at hm
    · rcases hg with rfl | ⟨v, _, _, _, rfl⟩
      · simp at he
      · simp only [List.mem_singleton] at he
        subst he
        simp at hm
  · obtain ⟨l1, l2, heq, hz, hg⟩ :=
      @soundCheck_shape r b cfg la
    rw [heq] at he
    rcases List.mem_append.1 he with he | he
    · rcases hz with rfl | ⟨v, _, _, _, _, rfl⟩
      · simp at he
      · simp only [List.mem_singleton] at he
        subst he
        simp at hm
    · rcases hg with rfl | ⟨v, _, _, _, rfl⟩
      · simp at he
      · simp only [List.mem_singleton] at he
        subst he
        simp at hm

/-- C1: with the cooldown clear for temp, a successful classification of a
sample with temperature present emits a robust_z_score event for temp_f
exactly when the baseline temp MAD is positive and the robust z-score
strictly exceeds the configured threshold, and any such event's details
carry the computed z-score and the threshold; concretely, with baseline
median 70, MAD 1, threshold 6, guardrail [50, 90] and no prior alerts, the
temp_f = 78.5 sample yields no event at all while the temp_f = 82.0 sample
yields exactly one robust_z_score event whose details carry z and 6. -/
theorem C1_robust_z_rule :
    (∀ (r : Reading) (b : BaselineStats) (cfg : Config) (la : LastAlertTimes)
       (t : ℚ) (evs : List Event),
       r.temp_f = some t → la .temp = none →
       detect_anomalies r b cfg la = .ok evs →
       (((∃ e, e ∈ evs ∧ e.metric = .temp_f ∧ e.rule = .robust_z_score) ↔
          (b.temp_f_mad > 0 ∧
            robust_z_score t b.temp_f_med b.temp_f_mad > cfg.robust_z_threshold)) ∧
        (∀ e, e ∈ evs → e.metric = .temp_f → e.rule = .robust_z_score →
          e.details = .zscore (robust_z_score t b.temp_f_med b.temp_f_mad)
            cfg.robust_z_threshold)))
    ∧ detect_anomalies sample785 baseline70 cfgDefault noAlerts = .ok []
    ∧ detect_anomalies sample820 baseline70 cfgDefault noAlerts =
        .ok [⟨0, .temp_f, 82, .robust_z_score, .zscore (robust_z_score 82 70 1) 6⟩] := by
  refine ⟨?_, ?_, ?_⟩
  · intro r b cfg la t evs ht hla hok
    have hgate : cooldown_gate la .temp r.ts cfg.cooldown_minutes = true :=
      cooldown_gate_none hla
    refine ⟨⟨?_, ?_⟩, ?_⟩
    · rintro ⟨e, he, hm, hr⟩
      obtain ⟨t', ht', hmad, hzv, _, _⟩ := mem_detect_temp_z hok he hm hr
      rw [ht] at ht'
      cases Option.some.inj ht'
      exact ⟨hmad, hzv⟩
    · rintro ⟨hmad, hzv⟩
      rcases detect_anomalies_ok_iff.1 hok with ⟨a1, a2, a3, h1, h2, h3, rfl⟩
      rw [tempZScoreCheck_eq ht, if_pos ⟨hmad, hzv, hgate⟩] at h1
      replace h1 := Except.ok.inj h1
      subst h1
      refine ⟨⟨r.ts, .temp_f, t, .robust_z_score,
        .zscore (robust_z_score t b.temp_f_med b.temp_f_mad)
          cfg.robust_z_threshold⟩, ?_, rfl, rfl⟩
      simp
    · intro e he hm hr
      obtain ⟨t', ht', _, _, _, hev⟩ := mem_detect_temp_z hok he hm hr
      rw [ht] at ht'
      cases Option.some.inj ht'
      rw [hev]
  · norm_num [detect_anomalies, tempZScoreCheck, humZScoreCheck, tempGuardrailCheck,
      humGuardrailCheck, luxCheck, soundCheck, luxValue, soundValue, cooldown_gate,
      should_send_alert, robust_z_score, sample785, baseline70, cfgDefault, noAlerts,
      abs_of_nonneg]
  · norm_num [detect_anomalies, tempZScoreCheck, humZScoreCheck, tempGuardrailCheck,
      humGuardrailCheck, luxCheck, soundCheck, luxValue, soundValue, cooldown_gate,
      should_send_alert, robust_z_score, sample820, baseline70, cfgDefault, noAlerts,
      abs_of_nonneg]

/-- Witness for C1: the universal part instantiated at the concrete
temp_f = 82.0 run of the end-to-end scenario. -/
theorem C1_robust_z_rule_witness :
    (((∃ e, e ∈ [(⟨0, .temp_f, 82, .robust_z_score,
          .zscore (robust_z_score 82 70 1) 6⟩ : Event)] ∧
        e.metric = .temp_f ∧ e.rule = .robust_z_score) ↔
       (baseline70.temp_f_mad > 0 ∧
         robust_z_score 82 baseline70.temp_f_med baseline70.temp_f_mad >
           cfgDefault.robust_z_threshold)) ∧
     (∀ e, e ∈ [(⟨0, .temp_f, 82, .robust_z_score,
          .zscore (robust_z_score 82 70 1) 6⟩ : Event)] →
        e.metric = .temp_f → e.rule = .robust_z_score →
        e.details = .zscore (robust_z_score 82 baseline70.temp_f_med
          baseline70.temp_f_mad) cfgDefault.robust_z_threshold)) :=
  C1_robust_z_rule.1 sample820 baseline70 cfgDefault noAlerts 82 _ rfl rfl
    C1_robust_z_rule.2.2

/-- C2 (code bug): a sample in which temperature is absent makes
detect_anomalies raise a TypeError (the temp guardrail comparison is
evaluated unconditionally), so the whole classification call aborts even
though the present humidity 95 lies outside the default guardrail range
and should have produced an event. -/
theorem C2_absent_metric_aborts :
    detect_anomalies sampleNoTemp zeroBaseline cfgDefault noAlerts =
      .error "TypeError: not supported between NoneType and float"
    ∧ (95 : ℚ) > cfgDefault.humidity_max := by
  constructor
  · norm_num [detect_anomalies, tempZScoreCheck, humZScoreCheck, tempGuardrailCheck,
      humGuardrailCheck, luxCheck, soundCheck, luxValue, soundValue, cooldown_gate,
      should_send_alert, robust_z_score, sampleNoTemp, zeroBaseline, cfgDefault,
      noAlerts]
  · norm_num [cfgDefault]

/-- C3 (code bug): a present humidity of exactly 0 falls strictly below the
default guardrail minimum 10, yet detect_anomalies returns no event because
the source gates the humidity guardrail on the truthiness of the value. -/
theorem C3_humidity_zero_guardrail :
    detect_anomalies sampleHumZero zeroBaseline cfgDefault noAlerts = .ok []
    ∧ (0 : ℚ) < cfgDefault.humidity_min := by
  constructor
  · norm_num [detect_anomalies, tempZScoreCheck, humZScoreCheck, tempGuardrailCheck,
      humGuardrailCheck, luxCheck, soundCheck, luxValue, soundValue, cooldown_gate,
      should_send_alert, robust_z_score, sampleHumZero, zeroBaseline, cfgDefault,
      noAlerts]
  · norm_num [cfgDefault]

/-- C4: the cooldown gate suppresses an alert for a metric with a recorded
last alert at T unless strictly more than cooldownMinutes minutes have
passed, and always allows it when no prior alert is recorded; concretely
with a 15-minute cooldown and a prior alert at time 0, an otherwise
triggering temp anomaly at T+10min yields no event while one at T+16min is
emitted. -/
theorem C4_cooldown_gate :
    (∀ T t c : ℤ, (should_send_alert (some T) t c = true ↔ t - T > c * 60))
    ∧ (∀ t c : ℤ, should_send_alert none t c = true)
    ∧ should_send_alert (some 0) 600 15 = false
    ∧ should_send_alert (some 0) 960 15 = true
    ∧ detect_anomalies sample83at600 baseline70 cfgDefault alertTempAtZero = .ok []
    ∧ detect_anomalies sample83at960 baseline70 cfgDefault alertTempAtZero =
        .ok [⟨960, .temp_f, 83, .robust_z_score, .zscore (robust_z_score 83 70 1) 6⟩] := by
  refine ⟨?_, ?_, ?_, ?_, ?_, ?_⟩
  · intro T t c
    simp [should_send_alert]
  · intro t c
    rfl
  · decide
  · decide
  · norm_num [detect_anomalies, tempZScoreCheck, humZScoreCheck, tempGuardrailCheck,
      humGuardrailCheck, luxCheck, soundCheck, luxValue, soundValue, cooldown_gate,
      should_send_alert, robust_z_score, sample83at600, baseline70, cfgDefault,
      alertTempAtZero, abs_of_nonneg]
  · norm_num [detect_anomalies, tempZScoreCheck, humZScoreCheck, tempGuardrailCheck,
      humGuardrailCheck, luxCheck, soundCheck, luxValue, soundValue, cooldown_gate,
      should_send_alert, robust_z_score, sample83at960, baseline70, cfgDefault,
      alertTempAtZero, abs_of_nonneg]

/-- Witness for C4: the strict-cooldown characterization instantiated at a
prior alert at time 0, a current time of 960 seconds and a 15-minute
cooldown. -/
theorem C4_cooldown_gate_witness :
    should_send_alert (some 0) 960 15 = true ↔ (960 : ℤ) - 0 > 15 * 60 :=
  C4_cooldown_gate.1 0 960 15

/-- C8: detect_anomalies never reads the four rate-of-change limits: two
configurations agreeing on every other field produce identical event
lists on every input. -/
theorem C8_roc_limits_inert (r : Reading) (b : BaselineStats)
    (la : LastAlertTimes) (cfg cfg' : Config)
    (h1 : cfg'.robust_z_threshold = cfg.robust_z_threshold)
    (h2 : cfg'.temp_min = cfg.temp_min) (h3 : cfg'.temp_max = cfg.temp_max)
    (h4 : cfg'.humidity_min = cfg.humidity_min)
    (h5 : cfg'.humidity_max = cfg.humidity_max)
    (h6 : cfg'.lux_min = cfg.lux_min) (h7 : cfg'.lux_max = cfg.lux_max)
    (h8 : cfg'.sound_min = cfg.sound_min) (h9 : cfg'.sound_max = cfg.sound_max)
    (h10 : cfg'.cooldown_minutes = cfg.cooldown_minutes) :
    detect_anomalies r b cfg la = detect_anomalies r b cfg' la := by
  simp only [detect_anomalies, tempZScoreCheck, humZScoreCheck, tempGuardrailCheck,
    humGuardrailCheck, luxCheck, soundCheck, h1, h2, h3, h4, h5, h6, h7, h8, h9, h10]

/-- Witness for C8: the default configuration and the same configuration
with all four rate-of-change limits changed classify the temp_f = 82.0
sample identically. -/
theorem C8_roc_limits_inert_witness :
    detect_anomalies sample820 baseline70 cfgDefault noAlerts =
      detect_anomalies sample820 baseline70 cfgRocChanged noAlerts :=
  C8_roc_limits_inert sample820 baseline70 noAlerts cfgDefault cfgRocChanged
    rfl rfl rfl rfl rfl rfl rfl rfl rfl rfl

/-- C9: robust_z_score is total, returning the scaled absolute deviation
for nonzero MAD and exactly 0 for MAD = 0; consequently a baseline with
temp MAD = 0 can never produce a (temp_f, robust_z_score) event, while the
temp guardrail still fires for an out-of-range present temperature. -/
theorem C9_mad_zero_layered_defense :
    (∀ x m mad : ℚ, mad ≠ 0 → robust_z_score x m mad = |x - m| / (1.4826 * mad))
    ∧ (∀ x m : ℚ, robust_z_score x m 0 = 0)
    ∧ (∀ (r : Reading) (b : BaselineStats) (cfg : Config) (la : LastAlertTimes)
         (evs : List Event), b.temp_f_mad = 0 →
         detect_anomalies r b cfg la = .ok evs →
         ∀ e, e ∈ evs → e.metric = .temp_f → e.rule ≠ .robust_z_score)
    ∧ (∀ (r : Reading) (b : BaselineStats) (cfg : Config) (la : LastAlertTimes)
         (t : ℚ), r.temp_f = some t → b.temp_f_mad = 0 →
         (¬ b.hum_mad > 0 ∨ r.humidity.isSome = true) →
         la .temp = none →
         (t < cfg.temp_min ∨ t > cfg.temp_max) →
         ∃ evs, detect_anomalies r b cfg la = .ok evs ∧
           (⟨r.ts, .temp_f, t, .guardrail,
             .guardrail t cfg.temp_min cfg.temp_max⟩ : Event) ∈ evs) := by
  refine ⟨?_, ?_, ?_, ?_⟩
  · intro x m mad h
    simp [robust_z_score, h]
  · intro x m
    simp [robust_z_score]
  · intro r b cfg la evs hmad hok e he hm hr
    obtain ⟨t, _, hpos, _⟩ := mem_detect_temp_z hok he hm hr
    rw [hmad] at hpos
    exact absurd hpos (lt_irrefl 0)
  · intro r b cfg la t ht hmad hhum hla hout
    have h1 : tempZScoreCheck r b cfg la = .ok [] :=
      tempZScoreCheck_nonpos (by rw [hmad]; exact lt_irrefl 0)
    have h2 : ∃ a2, humZScoreCheck r b cfg la = .ok a2 := by
      rcases hhum with hnm | hsome
      · exact ⟨[], humZScoreCheck_nonpos hnm⟩
      · obtain ⟨hv, hh⟩ := Option.isSome_iff_exists.1 hsome
        exact ⟨_, humZScoreCheck_eq hh⟩
    obtain ⟨a2, h2⟩ := h2
    have h3 : tempGuardrailCheck r cfg la =
        .ok [⟨r.ts, .temp_f, t, .guardrail,
              .guardrail t cfg.temp_min cfg.temp_max⟩] := by
      rw [tempGuardrailCheck_eq ht, if_pos ⟨hout, cooldown_gate_none hla⟩]
    refine ⟨_, detect_anomalies_ok_iff.2 ⟨[], a2, _, h1, h2, h3, rfl⟩, ?_⟩
    simp

/-- Witness for C9: the layered-defense conjunct instantiated at a
temp_f = 95.0 sample against the all-zero baseline. -/
theorem C9_mad_zero_layered_defense_witness :
    ∃ evs, detect_anomalies sample95 zeroBaseline cfgDefault noAlerts = .ok evs ∧
      (⟨sample95.ts, .temp_f, 95, .guardrail,
        .guardrail 95 cfgDefault.temp_min cfgDefault.temp_max⟩ : Event) ∈ evs :=
  C9_mad_zero_layered_defense.2.2.2 sample95 zeroBaseline cfgDefault noAlerts 95
    rfl rfl (Or.inl (by norm_num [zeroBaseline])) rfl
    (Or.inr (by norm_num [sample95, cfgDefault]))

/-- C10: a successful detect_anomalies call returns at most one event per
(metric, rule) pair, hence at most eight events, and every event carries
the sample's timestamp and the sample's own value for its metric. -/
theorem C10_event_list_invariants (r : Reading) (b : BaselineStats)
    (cfg : Config) (la : LastAlertTimes) (evs : List Event)
    (hok : detect_anomalies r b cfg la = .ok evs) :
    evs.Pairwise (fun e1 e2 => (e1.metric, e1.rule) ≠ (e2.metric, e2.rule))
    ∧ evs.length ≤ 8
    ∧ ∀ e, e ∈ evs → e.ts_utc = r.ts ∧ sampleValue r e.metric = some e.value := by
  have hsub := detect_anomalies_sigs hok
  have hall : allSigs.Nodup := by decide
  have hnodup : (evs.map sig).Nodup := hall.sublist hsub
  refine ⟨?_, ?_, ?_⟩
  · exact (List.pairwise_map).1 hnodup
  · have hle := hsub.length_le
    rw [List.length_map] at hle
    simpa [allSigs] using hle
  · intro e he
    exact mem_detect_anomalies hok he

/-- Witness for C10: the invariants instantiated at the one-event run of
the temp_f = 82.0 sample. -/
theorem C10_event_list_invariants_witness :
    ([(⟨0, .temp_f, 82, .robust_z_score,
        .zscore (robust_z_score 82 70 1) 6⟩ : Event)].Pairwise
      (fun e1 e2 => (e1.metric, e1.rule) ≠ (e2.metric, e2.rule)))
    ∧ ([(⟨0, .temp_f, 82, .robust_z_score,
          .zscore (robust_z_score 82 70 1) 6⟩ : Event)].length ≤ 8)
    ∧ ∀ e, e ∈ [(⟨0, .temp_f, 82, .robust_z_score,
          .zscore (robust_z_score 82 70 1) 6⟩ : Event)] →
        e.ts_utc = sample820.ts ∧ sampleValue sample820 e.metric = some e.value :=
  C10_event_list_invariants sample820 baseline70 cfgDefault noAlerts _
    (by norm_num [detect_anomalies, tempZScoreCheck, humZScoreCheck,
      tempGuardrailCheck, humGuardrailCheck, luxCheck, soundCheck, luxValue,
      soundValue, cooldown_gate, should_send_alert, robust_z_score, sample820,
      baseline70, cfgDefault, noAlerts, abs_of_nonneg])

/-- C7: after a push, the newly stamped entry carries the wall-clock
timestamp now, which is the maximum timestamp in the buffer (timestamps are
stamped by earlier now values, so they never exceed the current one), and
the buffer retains exactly the appended entries whose own stored timestamp
lies strictly within the 5-minute horizon of that maximum. -/
theorem C7_rolling_window_eviction (buf : List Reading) (v : SensorReading)
    (now : ℤ) (h : ∀ x ∈ buf, x.ts ≤ now) :
    ((bufferReading v now).ts = now ∧
      ∀ x ∈ buf ++ [bufferReading v now], x.ts ≤ now)
    ∧ (∀ x, x ∈ store_reading buf v now ↔
        (x ∈ buf ++ [bufferReading v now] ∧
          x.ts > now - rolling_window_minutes * 60)) := by
  refine ⟨⟨rfl, ?_⟩, ?_⟩
  · intro x hx
    rcases List.mem_append.1 hx with hx | hx
    · exact h x hx
    · simp only [List.mem_singleton] at hx
      subst hx
      exact le_refl now
  · intro x
    simp [store_reading, List.mem_filter]
    tauto

/-- Witness for C7: the eviction characterization at a concrete buffer
holding entries stamped 10 and 150, pushed at time 400. -/
theorem C7_rolling_window_eviction_witness :
    ((bufferReading sensorTemp70 400).ts = 400 ∧
      ∀ x ∈ [mkTsReading 10, mkTsReading 150] ++ [bufferReading sensorTemp70 400],
        x.ts ≤ 400)
    ∧ (∀ x, x ∈ store_reading [mkTsReading 10, mkTsReading 150] sensorTemp70 400 ↔
        (x ∈ [mkTsReading 10, mkTsReading 150] ++ [bufferReading sensorTemp70 400] ∧
          x.ts > 400 - rolling_window_minutes * 60)) :=
  C7_rolling_window_eviction [mkTsReading 10, mkTsReading 150] sensorTemp70 400
    (by decide)

/-- Unfolding of insertReading with its minute key inlined. -/
theorem insertReading_def (gs : List (ℤ × List Reading)) (r : Reading) :
    insertReading gs r =
      if gs.any (fun p => p.1 = minuteKey r.ts)
      then gs.map (fun p => if p.1 = minuteKey r.ts then (p.1, p.2 ++ [r]) else p)
      else gs ++ [(minuteKey r.ts, [r])] := rfl

/-- Inserting a reading never changes the list of minute keys except by
appending the reading's own key when it is new. -/
theorem map_fst_insertReading (gs : List (ℤ × List Reading)) (r : Reading) :
    (insertReading gs r).map Prod.fst =
      if gs.any (fun p => p.1 = minuteKey r.ts)
      then gs.map Prod.fst
      else gs.map Prod.fst ++ [minuteKey r.ts] := by
  rw [insertReading_def]
  split
  · rw [List.map_map]
    exact List.map_congr_left (fun p _ => by dsimp only [Function.comp]; split <;> rfl)
  · rw [List.map_append]
    rfl

/-- Inserting a reading preserves distinctness of the minute keys. -/
theorem nodup_insertReading {gs : List (ℤ × List Reading)} (r : Reading)
    (h : (gs.map Prod.fst).Nodup) :
    ((insertReading gs r).map Prod.fst).Nodup := by
  rw [map_fst_insertReading]
  split
  · exact h
  · rename_i hany
    have hnotin : minuteKey r.ts ∉ gs.map Prod.fst := by
      intro hmem
      obtain ⟨p, hp, hpk⟩ := List.mem_map.1 hmem
      exact hany (List.any_eq_true.2 ⟨p, hp, by simpa using hpk⟩)
    simp [List.nodup_append, h, hnotin]

/-- Inserting a reading preserves the per-group key discipline. -/
theorem wellKeyed_insertReading {gs : List (ℤ × List Reading)} {r : Reading}
    (h : ∀ p ∈ gs, ∀ x ∈ p.2, minuteKey x.ts = p.1) :
    ∀ p ∈ insertReading gs r, ∀ x ∈ p.2, minuteKey x.ts = p.1 := by
  rw [insertReading_def]
  split
  · intro p hp x hx
    obtain ⟨q, hq, hfq⟩ := List.mem_map.1 hp
    by_cases hk : q.1 = minuteKey r.ts
    · rw [if_pos hk] at hfq
      subst hfq
      simp only [List.mem_append, List.mem_singleton] at hx
      rcases hx with hx | rfl
      · exact h q hq x hx
      · exact hk.symm
    · rw [if_neg hk] at hfq
      subst hfq
      exact h q hq x hx
  · intro p hp x hx
    rcases List.mem_append.1 hp with hp | hp
    · exact h p hp x hx
    · simp only [List.mem_singleton] at hp
      subst hp
      simp only [List.mem_singleton] at hx
      subst hx
      rfl

/-- Appending a reading to the one group keyed k (keys distinct, k
present) grows the total row count by exactly one. -/
theorem sum_update (k : ℤ) (r : Reading) :
    ∀ gs : List (ℤ × List Reading), (gs.map Prod.fst).Nodup →
    gs.any (fun p => p.1 = k) = true →
    ((gs.map (fun p => if p.1 = k then (p.1, p.2 ++ [r]) else p)).map
        (fun p => p.2.length)).sum
      = (gs.map (fun p => p.2.length)).sum + 1 := by
  intro gs
  induction gs with
  | nil => intro _ hany; simp at hany
  | cons p ps ih =>
    intro hnd hany
    by_cases hp : p.1 = k
    · have hself : p.1 ∉ ps.map Prod.fst := (List.nodup_cons.1 hnd).1
      have hid : ps.map (fun q => if q.1 = k then (q.1, q.2 ++ [r]) else q) = ps := by
        have hcongr : ∀ q ∈ ps, (if q.1 = k then (q.1, q.2 ++ [r]) else q) = id q := by
          intro q hq
          have hqk : ¬ q.1 = k := by
            intro hqk
            exact hself (by rw [hp, ← hqk]; exact List.mem_map_of_mem _ hq)
          simp [hqk]
        rw [List.map_congr_left hcongr, List.map_id]
      rw [List.map_cons, if_pos hp, hid]
      simp only [List.map_cons, List.sum_cons, List.length_append,
        List.length_singleton]
      omega
    · have hany' : ps.any (fun q => q.1 = k) = true := by
        simp only [List.any_cons, hp] at hany
        simpa using hany
      have hnd' : (ps.map Prod.fst).Nodup := (List.nodup_cons.1 hnd).2
      rw [List.map_cons, if_neg hp]
      simp only [List.map_cons, List.sum_cons, ih hnd' hany']
      omega

/-- Inserting a reading into groups with distinct keys grows the total row
count by exactly one. -/
theorem sum_insertReading {gs : List (ℤ × List Reading)} (r : Reading)
    (hnd : (gs.map Prod.fst).Nodup) :
    ((insertReading gs r).map (fun p => p.2.length)).sum
      = ((gs.map (fun p => p.2.length)).sum) + 1 := by
  rw [insertReading_def]
  split
  · rename_i hany
    exact sum_update (minuteKey r.ts) r gs hnd hany
  · simp

/-- Groups survive an insertion: same key, and membership is preserved. -/
theorem mem_groups_insertReading (gs : List (ℤ × List Reading)) (r : Reading)
    {q : ℤ × List Reading} (hq : q ∈ gs) :
    ∃ q' ∈ insertReading gs r, q'.1 = q.1 ∧ ∀ x ∈ q.2, x ∈ q'.2 := by
  rw [insertReading_def]
  split
  · refine ⟨(if q.1 = minuteKey r.ts then (q.1, q.2 ++ [r]) else q),
      List.mem_map_of_mem _ hq, ?_, ?_⟩
    · split <;> rfl
    · intro x hx
      split <;> simp [hx]
  · exact ⟨q, by simp [hq], rfl, fun x hx => hx⟩

/-- The inserted reading lands in a group keyed by its own minute. -/
theorem self_mem_insertReading (gs : List (ℤ × List Reading)) (r : Reading) :
    ∃ q ∈ insertReading gs r, q.1 = minuteKey r.ts ∧ r ∈ q.2 := by
  rw [insertReading_def]
  split
  · rename_i hany
    obtain ⟨p, hp, hpk⟩ : ∃ p ∈ gs, p.1 = minuteKey r.ts := by simpa using hany
    refine ⟨(p.1, p.2 ++ [r]), ?_, by simpa using hpk, by simp⟩
    have : (fun q => if q.1 = minuteKey r.ts then (q.1, q.2 ++ [r]) else q) p
        = (p.1, p.2 ++ [r]) := by simp [hpk]
    rw [← this]
    exact List.mem_map_of_mem _ hp
  · exact ⟨(minuteKey r.ts, [r]), by simp, rfl, by simp⟩

/-- Invariant of the grouping fold: distinct keys, per-group key
discipline, row counts summing to the number of processed readings,
persistence of existing groups, and a home group for every processed
reading. -/
theorem aggregate_foldl_spec :
    ∀ (rs : List Reading) (gs : List (ℤ × List Reading)),
    (gs.map Prod.fst).Nodup →
    (∀ p ∈ gs, ∀ x ∈ p.2, minuteKey x.ts = p.1) →
    (((rs.foldl insertReading gs).map Prod.fst).Nodup
     ∧ (∀ p ∈ rs.foldl insertReading gs, ∀ x ∈ p.2, minuteKey x.ts = p.1)
     ∧ ((rs.foldl insertReading gs).map (fun p => p.2.length)).sum
         = (gs.map (fun p => p.2.length)).sum + rs.length
     ∧ (∀ q ∈ gs, ∃ q' ∈ rs.foldl insertReading gs, q'.1 = q.1 ∧ ∀ x ∈ q.2, x ∈ q'.2)
     ∧ (∀ x ∈ rs, ∃ q ∈ rs.foldl insertReading gs, q.1 = minuteKey x.ts ∧ x ∈ q.2)) := by
  intro rs
  induction rs with
  | nil =>
    intro gs h1 h2
    exact ⟨h1, h2, by simp, fun q hq => ⟨q, hq, rfl, fun x hx => hx⟩, by simp⟩
  | cons r rs ih =>
    intro gs h1 h2
    have h1' := nodup_insertReading r h1
    have h2' := @wellKeyed_insertReading gs r h2
    obtain ⟨g1, g2, g3, g4, g5⟩ := ih (insertReading gs r) h1' h2'
    refine ⟨g1, g2, ?_, ?_, ?_⟩
    · simp only [List.foldl_cons] at g3 ⊢
      rw [g3, sum_insertReading r h1, List.length_cons]
      omega
    · intro q hq
      obtain ⟨q', hq', hk, hsub⟩ := mem_groups_insertReading gs r hq
      obtain ⟨q'', hq'', hk', hsub'⟩ := g4 q' hq'
      exact ⟨q'', hq'', hk'.trans hk, fun x hx => hsub' x (hsub x hx)⟩
    · intro x hx
      rcases List.mem_cons.1 hx with rfl | hx
      · obtain ⟨q, hq, hk, hr⟩ := self_mem_insertReading gs x
        obtain ⟨q', hq', hk', hsub⟩ := g4 q hq
        exact ⟨q', hq', hk'.trans hk, hsub x hr⟩
      · exact g5 x hx

set_option maxRecDepth 20000 in
/-- C6: minute aggregation is a hard partition by truncated timestamp:
minute keys are pairwise distinct, every bucket member's truncated
timestamp equals the bucket key, the per-bucket row counts sum to the
total number of readings, and every reading lands in a bucket keyed by its
minute; concretely, 90 one-second samples spanning 01:00:00 to 01:01:29
produce exactly the two buckets 01:00:00 and 01:01:00 with row counts 60
and 30. -/
theorem C6_minute_partition :
    (∀ readings : List Reading,
      (((aggregate_readings_to_minutes readings).map Prod.fst).Nodup)
      ∧ (∀ p ∈ aggregate_readings_to_minutes readings, ∀ x ∈ p.2,
          minuteKey x.ts = p.1)
      ∧ ((aggregate_readings_to_minutes readings).map (fun p => p.2.length)).sum
          = readings.length
      ∧ (∀ x ∈ readings, ∃ p ∈ aggregate_readings_to_minutes readings,
          p.1 = minuteKey x.ts ∧ x ∈ p.2))
    ∧ (aggregate_readings_to_minutes demo90).map Prod.fst = [3600, 3660]
    ∧ (aggregate_readings_to_minutes demo90).map (fun p => p.2.length) = [60, 30] := by
  refine ⟨?_, ?_, ?_⟩
  · intro readings
    obtain ⟨g1, g2, g3, _, g5⟩ := aggregate_foldl_spec readings [] (by simp) (by simp)
    exact ⟨g1, g2, by simpa using g3, g5⟩
  · decide
  · decide

/-- Witness for C6: the partition properties instantiated at the 90-sample
two-bucket scenario. -/
theorem C6_minute_partition_witness :
    (((aggregate_readings_to_minutes demo90).map Prod.fst).Nodup)
    ∧ (∀ p ∈ aggregate_readings_to_minutes demo90, ∀ x ∈ p.2,
        minuteKey x.ts = p.1)
    ∧ ((aggregate_readings_to_minutes demo90).map (fun p => p.2.length)).sum
        = demo90.length
    ∧ (∀ x ∈ demo90, ∃ p ∈ aggregate_readings_to_minutes demo90,
        p.1 = minuteKey x.ts ∧ x ∈ p.2) :=
  C6_minute_partition.1 demo90

/-- C5 counterexample: in a bucket whose first reading is extended but has
an empty lux slot, a lux value present in a later reading does not
contribute — the bucket's lux median is not the median of the per-reading
present lux values (0 versus 100). -/
theorem C5_counterexample :
    ¬ ((calculate_minute_stats [rLuxNone, rLux100]).lux_med
        = npMedian ([rLuxNone, rLux100].filterMap Reading.lux)) := by
  intro h
  have h0 : (calculate_minute_stats [rLuxNone, rLux100]).lux_med = 0 := rfl
  have h100 : npMedian ([rLuxNone, rLux100].filterMap Reading.lux) = 100 := rfl
  rw [h0, h100] at h
  norm_num at h

/-- C5 (amended): temperature and humidity statistics pool exactly the
per-reading present values (so a value present only after the first
reading still contributes), a metric absent from every reading yields
zero-valued statistics rather than an error, and the row count is the
bucket size; light (and symmetrically sound) statistics pool the
per-reading present values only when the first reading is extended and has
the metric present, and are zero otherwise; the empty bucket yields the
all-zero record; baseline thresholds pool the same way over the raw
readings. -/
theorem C5_stats_pooling_amended :
    (∀ (r0 : Reading) (rest : List Reading),
      (calculate_minute_stats (r0 :: rest)).temp_f_med =
        (if ((r0 :: rest).filterMap Reading.temp_f).isEmpty then 0
         else npMedian ((r0 :: rest).filterMap Reading.temp_f))
      ∧ (calculate_minute_stats (r0 :: rest)).temp_f_mad =
        (if ((r0 :: rest).filterMap Reading.temp_f).isEmpty then 0
         else median_absolute_deviation ((r0 :: rest).filterMap Reading.temp_f))
      ∧ (calculate_minute_stats (r0 :: rest)).hum_med =
        (if ((r0 :: rest).filterMap Reading.humidity).isEmpty then 0
         else npMedian ((r0 :: rest).filterMap Reading.humidity))
      ∧ (calculate_minute_stats (r0 :: rest)).rows = (r0 :: rest).length)
    ∧ (∀ (r0 : Reading) (rest : List Reading),
        (r0.ext && r0.lux.isSome) = true →
        (calculate_minute_stats (r0 :: rest)).lux_med =
          (if ((r0 :: rest).filterMap Reading.lux).isEmpty then 0
           else npMedian ((r0 :: rest).filterMap Reading.lux))
        ∧ (calculate_minute_stats (r0 :: rest)).lux_mad =
          (if ((r0 :: rest).filterMap Reading.lux).isEmpty then 0
           else median_absolute_deviation ((r0 :: rest).filterMap Reading.lux)))
    ∧ (∀ (r0 : Reading) (rest : List Reading),
        (r0.ext && r0.lux.isSome) = false →
        (calculate_minute_stats (r0 :: rest)).lux_med = 0
        ∧ (calculate_minute_stats (r0 :: rest)).lux_mad = 0)
    ∧ (∀ (r0 : Reading) (rest : List Reading),
        (r0 :: rest).filterMap Reading.temp_f = [] →
        (calculate_minute_stats (r0 :: rest)).temp_f_med = 0
        ∧ (calculate_minute_stats (r0 :: rest)).temp_f_mad = 0)
    ∧ ((calculate_minute_stats []).temp_f_med = 0
        ∧ (calculate_minute_stats []).lux_med = 0
        ∧ (calculate_minute_stats []).rows = 0)
    ∧ (calculate_minute_stats [rTempNone, rTemp80]).temp_f_med = 80
    ∧ (∀ (r0 : Reading) (rest : List Reading) (bt : BaselineThresholds),
        calculate_baseline_thresholds (r0 :: rest) = some bt →
        bt.temp_f_med =
          (if ((r0 :: rest).filterMap Reading.temp_f).isEmpty then 0
           else npMedian ((r0 :: rest).filterMap Reading.temp_f))
        ∧ ((r0.ext && r0.lux.isSome) = false → bt.lux_med = 0)) := by
  refine ⟨?_, ?_, ?_, ?_, ?_, ?_, ?_⟩
  · intro r0 rest
    exact ⟨rfl, rfl, rfl, rfl⟩
  · intro r0 rest h
    constructor <;> simp [calculate_minute_stats, h]
  · intro r0 rest h
    constructor <;> simp [calculate_minute_stats, h]
  · intro r0 rest h
    constructor <;> simp [calculate_minute_stats, h]
  · exact ⟨rfl, rfl, rfl⟩
  · rfl
  · intro r0 rest bt h
    simp only [calculate_baseline_thresholds] at h
    replace h := Option.some.inj h
    subst h
    exact ⟨rfl, fun hl => by simp [hl]⟩

/-- Witness for C5: the amended light-pooling clause instantiated at the
one-reading bucket whose first reading is extended and carries lux 100. -/
theorem C5_stats_pooling_amended_witness :
    (calculate_minute_stats [rLux100]).lux_med =
      (if (([rLux100] : List Reading).filterMap Reading.lux).isEmpty then 0
       else npMedian (([rLux100] : List Reading).filterMap Reading.lux))
    ∧ (calculate_minute_stats [rLux100]).lux_mad =
      (if (([rLux100] : List Reading).filterMap Reading.lux).isEmpty then 0
       else median_absolute_deviation
         (([rLux100] : List Reading).filterMap Reading.lux)) :=
  C5_stats_pooling_amended.2.1 rLux100 [] rfl

end SleepMonitor
